import Mathlib

/-!
Verification of the gateway core of spacebar-oxidized (symfonia) against its
natural-language specification. The embedding follows the source under `src/`:
`gateway_task`, `unwrap_event` and `process_inbox` from
`src/src/gateway/gateway_task.rs`, and the startup sequence of `src/src/main.rs`.
Types that live in modules not present under `src/` (the `Event` union and error
taxonomy of `errors.rs`, the registry store of `gateway/mod.rs`) are modelled from
the specification, as noted on each definition.
-/

namespace SpacebarGateway

/-- 64-bit time-ordered identifier (`chorus::types::Snowflake`), modelled as `Nat`. -/
abbrev Snowflake := Nat

/-- Identifier of one session (one connected socket) of a user. -/
abbrev SessionId := Nat

/-- Modelled from the spec: the gateway `Event` union (the `Event` type lives in
`gateway/mod.rs`, which is not under `src/`) — "a closed, tagged union over the
protocol's operation space — Dispatch (carries a named sub-event and payload),
Heartbeat, HeartbeatAck, Identify, Resume, Reconnect, InvalidSession, Hello". -/
inductive Event where
  | dispatch (name : String) (payload : String)
  | heartbeat (seq : Option Nat)
  | heartbeatAck
  | identify
  | resume
  | reconnect
  | invalidSession
  | hello
deriving DecidableEq, Repr

/-- Modelled from the spec: the gateway error taxonomy (`GatewayError` in
`errors.rs`, not under `src/`) — the two distinguishable decode failures
`UnexpectedOpcode` and `UnexpectedMessage` named by `unwrap_event`'s match arms,
plus further variants reached by its wildcard arm. -/
inductive GatewayError where
  | unexpectedOpcode (o : Nat)
  | unexpectedMessage (m : String)
  | timeout
  | closed
deriving DecidableEq, Repr

/-- Modelled from the spec: the top-level `Error` type (`errors.rs`, not under
`src/`) — the `Gateway` variant matched by `unwrap_event`, plus other variants
reached by its outer wildcard arm. -/
inductive Error where
  | gateway (g : GatewayError)
  | database (msg : String)
deriving DecidableEq, Repr

/-- A websocket close frame: close code and reason, as in the
`CloseFrame { code: CloseCode::Library(n), reason }` values built in
`gateway_task.rs`. -/
structure CloseFrame where
  code : Nat
  reason : String
deriving DecidableEq, Repr

/-- The observable per-session side effects performed by the gateway code, in
program order: a close frame written to the socket sender, an event serialized and
written to the socket sender (`Message::Text(json!(event).to_string())`), a
broadcast on the session's kill channel (`kill_send.send(())`), and a heartbeat
forwarded to the heartbeat handler (`heartbeat_send.send(..)`). -/
inductive Action where
  | sendClose (frame : CloseFrame)
  | sendEventText (e : Event)
  | sendKill
  | forwardHeartbeat (seq : Option Nat)
deriving DecidableEq, Repr

/-- Result of `unwrap_event`: the actions it performed in order, the unwrapped
event when the input was `Ok`, and the message of the `panic` that kills the
gateway task when the input was an error (`none` when it returned normally). -/
structure UnwrapOutcome where
  actions : List Action
  result : Option Event
  panicMsg : Option String
deriving DecidableEq, Repr

/-- `unwrap_event` (src/src/gateway/gateway_task.rs lines 103-141): on `Err` it
sends a close frame chosen by the error variant, raises the kill signal, and then
panics; on `Ok` it returns the event with no side effects. The
`kill_send.send(()).expect(..)` cannot fail while the connection's own
`kill_receive` half is alive, so it is modelled as the plain `sendKill` action. -/
def unwrap_event (result : Except Error Event) : UnwrapOutcome :=
  match result with
  | .error e =>
    match e with
    | .gateway g =>
      match g with
      | .unexpectedOpcode _ =>
        { actions := [.sendClose ⟨4001, "UNKNOWN_OPCODE"⟩, .sendKill]
          result := none
          panicMsg := some "Killing gateway task: Received an unexpected opcode" }
      | .unexpectedMessage _ =>
        { actions := [.sendClose ⟨4002, "DECODE_ERROR"⟩, .sendKill]
          result := none
          panicMsg := some "Killing gateway task: Received an unexpected message" }
      | _ =>
        { actions := [.sendClose ⟨4000, "INTERNAL_SERVER_ERROR"⟩, .sendKill]
          result := none
          panicMsg := some "Killing gateway task: Received an unexpected error" }
    | _ =>
      { actions := [.sendClose ⟨4000, "INTERNAL_SERVER_ERROR"⟩, .sendKill]
        result := none
        panicMsg := some "Killing gateway task: Received an unexpected error" }
  | .ok event => { actions := [], result := some event, panicMsg := none }

/-- The close frame the spec's error taxonomy prescribes for each error, written
from the spec's words ("Close codes: 1000 clean shutdown; 4000 internal error;
4001 unknown opcode; 4002 decode error") to be compared with `unwrap_event`:
unexpected opcode 4001 "UNKNOWN_OPCODE", unexpected message 4002 "DECODE_ERROR",
every other error 4000 "INTERNAL_SERVER_ERROR". -/
def specCloseFrame : Error → CloseFrame
  | .gateway (.unexpectedOpcode _) => ⟨4001, "UNKNOWN_OPCODE"⟩
  | .gateway (.unexpectedMessage _) => ⟨4002, "DECODE_ERROR"⟩
  | _ => ⟨4000, "INTERNAL_SERVER_ERROR"⟩

/-- Association-list map keyed by `Snowflake`, mirroring the hash maps of the
registry store; keys are unique in every store the code builds, and the operations
below mirror `HashMap::remove` / lookup on such maps. -/
abbrev SnowMap (α : Type) := List (Snowflake × α)

/-- `HashMap::remove(&k)` on the modelled map: drops the entry keyed `k`, leaves
every other entry in place; removing an absent key changes nothing. -/
def removeKey {α : Type} : SnowMap α → Snowflake → SnowMap α
  | [], _ => []
  | p :: t, k => if p.1 = k then removeKey t k else p :: removeKey t k

/-- Map lookup on the modelled map (first entry keyed `k`, if any). -/
def lookupKey {α : Type} : SnowMap α → Snowflake → Option α
  | [], _ => none
  | p :: t, k => if p.1 = k then some p.2 else lookupKey t k

/-- Modelled from the spec: the registry store behind `connected_users.store`
(`ConnectedUsers` lives in `gateway/mod.rs`, not under `src/`) — "Registry Entry:
user identity → set of active Session handles + associated inbox sender(s)".
`users` maps a user id to that user's live session handles; `inboxes` maps a user
id to the session ids subscribed to that user's inbox sender. `gateway_task`
manipulates the store only through `users.remove(&user_id)` and
`inboxes.remove(&user_id)`. -/
structure RegistryStore where
  users : SnowMap (List SessionId)
  inboxes : SnowMap (List SessionId)
deriving DecidableEq, Repr

/-- The registry-removal branch of `gateway_task`
(src/src/gateway/gateway_task.rs lines 42-49): on observing the kill signal it
takes the store write lock, removes the `users` entry and the `inboxes` entry
keyed by `user_id` — the terminating session's id is not consulted — and returns. -/
def gatewayKillBranch (store : RegistryStore) (user_id : Snowflake) : RegistryStore :=
  { users := removeKey store.users user_id
    inboxes := removeKey store.inboxes user_id }

/-- Modelled from the spec: `publish(scope, event)` for a user scope — the publish
path lives in `gateway/mod.rs`, not under `src/` — "resolves recipients via the
Registry (`inboxes_for(user)`) and enqueues the event onto each recipient's
inbox". Returns the session ids the event reaches through the user's registry
inbox entry. -/
def deliver_to_user (store : RegistryStore) (u : Snowflake) : List SessionId :=
  match lookupKey store.inboxes u with
  | some sessions => sessions
  | none => []

end SpacebarGateway

namespace SpacebarGateway

theorem removeKey_idem {α : Type} (m : SnowMap α) (k : Snowflake) :
    removeKey (removeKey m k) k = removeKey m k := by
  induction m with
  | nil => rfl
  | cons p t ih => by_cases hp : p.1 = k <;> simp [removeKey, hp, ih]

theorem lookupKey_removeKey_ne {α : Type} (m : SnowMap α) (k v : Snowflake)
    (h : v ≠ k) : lookupKey (removeKey m k) v = lookupKey m v := by
  have hkv : k ≠ v := fun hc => h hc.symm
  induction m with
  | nil => rfl
  | cons p t ih =>
    by_cases hp : p.1 = k
    · simp [removeKey, lookupKey, hp, hkv, ih]
    · by_cases hv : p.1 = v
      · simp [removeKey, lookupKey, hp, hv, h]
      · simp [removeKey, lookupKey, hp, hv, ih]

/-- C1: with user 1 holding two independent live sessions 10 and 11 (both present
in the registry entry and subscribed to user 1's inbox), running the
registry-removal branch when session 10's cancellation fires removes the entire
user-keyed entry: user 1's `users` and `inboxes` entries are gone, and an event
published to user 1 is delivered to no session — in particular not to the
surviving session 11 — although before the removal it reached both. The claim
says only session 10's state is removed and delivery to session 11 continues. -/
theorem c1_kill_branch_removes_whole_user :
    deliver_to_user ⟨[(1, [10, 11])], [(1, [10, 11])]⟩ 1 = [10, 11] ∧
    lookupKey (gatewayKillBranch ⟨[(1, [10, 11])], [(1, [10, 11])]⟩ 1).users 1 = none ∧
    lookupKey (gatewayKillBranch ⟨[(1, [10, 11])], [(1, [10, 11])]⟩ 1).inboxes 1 = none ∧
    deliver_to_user (gatewayKillBranch ⟨[(1, [10, 11])], [(1, [10, 11])]⟩ 1) 1 = [] := by
  exact ⟨rfl, rfl, rfl, rfl⟩

/-- C6: the registry-removal branch of `gateway_task` is idempotent — running it a
second time for the same user (cancellation firing twice, or removal of an
already-removed entry) leaves the registry exactly as running it once — and it
never removes or alters any other user's `users` or `inboxes` entry; the modelled
removal is total, so no panic is possible. -/
theorem c6_kill_branch_idempotent (store : RegistryStore) (u v : Snowflake) :
    gatewayKillBranch (gatewayKillBranch store u) u = gatewayKillBranch store u ∧
    (v ≠ u →
      lookupKey (gatewayKillBranch store u).users v = lookupKey store.users v ∧
      lookupKey (gatewayKillBranch store u).inboxes v = lookupKey store.inboxes v) := by
  refine ⟨?_, fun hv => ⟨?_, ?_⟩⟩
  · simp [gatewayKillBranch, removeKey_idem]
  · exact lookupKey_removeKey_ne _ _ _ hv
  · exact lookupKey_removeKey_ne _ _ _ hv

/-- C6 witness: the idempotence and frame property of the removal branch at a
concrete registry holding users 1 and 2. -/
theorem c6_kill_branch_idempotent_witness :
    (gatewayKillBranch (gatewayKillBranch ⟨[(1, [10]), (2, [20])], [(1, [10]), (2, [20])]⟩ 1) 1 =
      gatewayKillBranch ⟨[(1, [10]), (2, [20])], [(1, [10]), (2, [20])]⟩ 1) ∧
    (lookupKey (gatewayKillBranch ⟨[(1, [10]), (2, [20])], [(1, [10]), (2, [20])]⟩ 1).users 2 =
      lookupKey (⟨[(1, [10]), (2, [20])], [(1, [10]), (2, [20])]⟩ : RegistryStore).users 2 ∧
     lookupKey (gatewayKillBranch ⟨[(1, [10]), (2, [20])], [(1, [10]), (2, [20])]⟩ 1).inboxes 2 =
      lookupKey (⟨[(1, [10]), (2, [20])], [(1, [10]), (2, [20])]⟩ : RegistryStore).inboxes 2) :=
  ⟨(c6_kill_branch_idempotent ⟨[(1, [10]), (2, [20])], [(1, [10]), (2, [20])]⟩ 1 2).1,
   (c6_kill_branch_idempotent ⟨[(1, [10]), (2, [20])], [(1, [10]), (2, [20])]⟩ 1 2).2
     (by decide)⟩

/-- Per-session mutable state visible to the embedded tasks: the process-wide
registry store and the session's `last_sequence_number` (the `Arc<Mutex<u64>>`
handed to `gateway_task`). -/
structure GatewayState where
  store : RegistryStore
  lastSequenceNumber : Nat
deriving DecidableEq, Repr

/-- Outcome of one `tokio::select!` iteration of `gateway_task`
(src/src/gateway/gateway_task.rs lines 40-88): either the kill signal fired
(`connection.kill_receive.recv()`), or `connection.receiver.recv()` yielded a raw
message whose decode (`Event::try_from`, in `gateway/mod.rs`, not under `src/`)
produced `decoded` — with `hbOpen` telling whether `heartbeat_send.send` succeeds,
i.e. whether the heartbeat handler still holds its receiver — or the receiver
returned an error. -/
inductive GatewaySelect where
  | kill
  | msg (decoded : Except Error Event) (hbOpen : Bool)
  | recvErr
deriving Repr

/-- Result of one iteration of the `gateway_task` loop: the updated state, the
per-session actions in order, whether the task returned, and the panic message
when the iteration panicked inside `unwrap_event`. -/
structure GatewayStepOutcome where
  state : GatewayState
  actions : List Action
  returned : Bool
  panicMsg : Option String
deriving DecidableEq, Repr

/-- One iteration of the `gateway_task` select loop
(src/src/gateway/gateway_task.rs lines 40-88) for the session of `user_id`:
the kill branch removes the user-keyed registry entries and returns; a decoded
Dispatch is a protocol violation answered with close 4002 "DECODE_ERROR" plus the
kill signal; a Heartbeat is forwarded to the heartbeat handler, and if that send
fails the code sends close 4002 "DECODE_ERROR" plus the kill signal; every other
event only logs; a receive error is answered with close 4000
"INTERNAL_SERVER_ERROR" plus the kill signal. -/
def gateway_task_step (st : GatewayState) (user_id : Snowflake)
    (sel : GatewaySelect) : GatewayStepOutcome :=
  match sel with
  | .kill =>
    { state := { st with store := gatewayKillBranch st.store user_id }
      actions := [], returned := true, panicMsg := none }
  | .msg decoded hbOpen =>
    let u := unwrap_event decoded
    match u.result with
    | none =>
      { state := st, actions := u.actions, returned := false, panicMsg := u.panicMsg }
    | some event =>
      match event with
      | .dispatch _ _ =>
        { state := st
          actions := [.sendClose ⟨4002, "DECODE_ERROR"⟩, .sendKill]
          returned := false, panicMsg := none }
      | .heartbeat s =>
        if hbOpen then
          { state := st, actions := [.forwardHeartbeat s]
            returned := false, panicMsg := none }
        else
          { state := st
            actions := [.sendClose ⟨4002, "DECODE_ERROR"⟩, .sendKill]
            returned := false, panicMsg := none }
      | _ =>
        { state := st, actions := [], returned := false, panicMsg := none }
  | .recvErr =>
    { state := st
      actions := [.sendClose ⟨4000, "INTERNAL_SERVER_ERROR"⟩, .sendKill]
      returned := false, panicMsg := none }

/-- C2: in the post-handshake loop, receiving a Heartbeat while the heartbeat
handler's inbound channel is closed makes `gateway_task` send a close frame with
code 4002 and reason "DECODE_ERROR" — not the "internal error" code 4000 the claim
requires — though it does raise the session's kill signal. Evaluation of the code
at the failing input. -/
theorem c2_dead_heartbeat_handler_close_code :
    (gateway_task_step ⟨⟨[(1, [10])], [(1, [10])]⟩, 0⟩ 1
        (.msg (.ok (.heartbeat (some 5))) false)).actions =
      [Action.sendClose ⟨4002, "DECODE_ERROR"⟩, Action.sendKill] := by
  rfl

/-- C4: post-handshake, any Dispatch event decoded from a client message makes
`gateway_task` send a close frame with code 4002 and reason "DECODE_ERROR" and
raise the session's kill signal, whatever the dispatch name and payload and
whatever the rest of the state. -/
theorem c4_client_dispatch_closes_4002 (st : GatewayState) (uid : Snowflake)
    (name payload : String) (hbOpen : Bool) :
    (gateway_task_step st uid (.msg (.ok (.dispatch name payload)) hbOpen)).actions =
      [Action.sendClose ⟨4002, "DECODE_ERROR"⟩, Action.sendKill] := by
  rfl

/-- C5: handling an unexpected-opcode failure in `unwrap_event` panics — the
gateway task is killed through a `panic`, as its own doc comment states — refuting
the claim that failure handling never escalates to a panic. -/
theorem c5_unwrap_event_panics_on_error :
    (unwrap_event (.error (.gateway (.unexpectedOpcode 255)))).panicMsg =
      some "Killing gateway task: Received an unexpected opcode" := by
  rfl

/-- C5 (amended): every failure arising from decoding a client message is isolated
to the one session — the iteration leaves the registry state untouched and
produces only that session's close frame (per the taxonomy) and kill signal — but
the error paths of `unwrap_event` then kill the gateway task through a panic
(caught at the task boundary) instead of returning normally. -/
theorem c5_failure_isolated_but_panics (st : GatewayState) (uid : Snowflake)
    (e : Error) (hbOpen : Bool) :
    (gateway_task_step st uid (.msg (.error e) hbOpen)).state = st ∧
    (gateway_task_step st uid (.msg (.error e) hbOpen)).actions =
      [Action.sendClose (specCloseFrame e), Action.sendKill] ∧
    (gateway_task_step st uid (.msg (.error e) hbOpen)).panicMsg.isSome = true := by
  cases e with
  | gateway g => cases g <;> exact ⟨rfl, rfl, rfl⟩
  | database m => exact ⟨rfl, rfl, rfl⟩

/-- C3: for every error result passed to `unwrap_event`, the close frame sent
matches the spec's taxonomy — `UnexpectedOpcode` yields 4001 "UNKNOWN_OPCODE",
`UnexpectedMessage` yields 4002 "DECODE_ERROR", every other error yields 4000
"INTERNAL_SERVER_ERROR" — and in each case the session's kill signal is raised
immediately after the close frame. -/
theorem c3_unwrap_event_matches_taxonomy (e : Error) :
    (unwrap_event (.error e)).actions =
      [Action.sendClose (specCloseFrame e), Action.sendKill] := by
  cases e with
  | gateway g => cases g <;> rfl
  | database m => rfl

/-- Outcome of one `tokio::select!` iteration of `process_inbox`
(src/src/gateway/gateway_task.rs lines 148-171): the kill signal fired; or
`inbox.recv()` yielded an event, with `sendOk` telling whether the socket write
succeeds; or `inbox.recv()` returned an error (channel closed or lagged). Both
branches of the select are ready whenever both channels hold a queued item, and
`tokio::select!` picks among ready branches nondeterministically; the schedule of
`InboxSelect` values resolves that choice. -/
inductive InboxSelect where
  | kill
  | event (e : Event) (sendOk : Bool)
  | recvErr
deriving DecidableEq, Repr

/-- Result of one iteration of the `process_inbox` loop: the actions performed in
order and whether the loop returned. -/
structure InboxStepOutcome where
  actions : List Action
  returned : Bool
deriving DecidableEq, Repr

/-- One iteration of the `process_inbox` select loop
(src/src/gateway/gateway_task.rs lines 144-172). Observing the kill signal
returns; a dequeued event is serialized and written to the socket, and on write
failure the kill signal is raised and the loop falls through to its next
iteration (there is no `return` or retry in that arm); a receive error returns
silently. No branch touches the registry store or the sequence counter (the
increment is an unimplemented TODO in the source). -/
def process_inbox_step (st : GatewayState) (sel : InboxSelect) :
    GatewayState × InboxStepOutcome :=
  match sel with
  | .kill => (st, { actions := [], returned := true })
  | .event e sendOk =>
    if sendOk then
      (st, { actions := [.sendEventText e], returned := false })
    else
      (st, { actions := [.sendEventText e, .sendKill], returned := false })
  | .recvErr => (st, { actions := [], returned := true })

/-- Successive iterations of the `process_inbox` loop over a schedule of select
outcomes, accumulating actions in order and stopping when an iteration returns;
the final `Bool` tells whether the loop returned within the schedule. -/
def process_inbox_run (st : GatewayState) :
    List InboxSelect → GatewayState × List Action × Bool
  | [] => (st, [], false)
  | sel :: rest =>
    let step := process_inbox_step st sel
    if step.2.returned then (step.1, step.2.actions, true)
    else
      let tail := process_inbox_run step.1 rest
      (tail.1, step.2.actions ++ tail.2.1, tail.2.2)

/-- C7: after a failed socket write the `process_inbox` loop does not exit; with a
second event already queued on the inbox, the next select iteration may take the
inbox branch before the kill branch, so a further send is performed after the
failure — the run below writes the second event after raising the kill signal and
has still not returned. This refutes "exits its loop without retrying the send; it
performs no further sends for that session after the failure". -/
theorem c7_send_attempted_after_failure :
    process_inbox_run ⟨⟨[(1, [10])], [(1, [10])]⟩, 0⟩
        [.event .hello false, .event .heartbeatAck true] =
      (⟨⟨[(1, [10])], [(1, [10])]⟩, 0⟩,
       [.sendEventText .hello, .sendKill, .sendEventText .heartbeatAck],
       false) := by
  rfl

/-- C7 (amended): on a socket write failure the Inbox Processor raises the
session's kill signal within that same iteration and does not retry the failed
send (exactly one write is attempted for the dequeued event); the loop keeps
running and exits once an iteration observes the kill signal, performing no
actions on that final iteration. -/
theorem c7_kill_raised_and_no_retry (st : GatewayState) (e : Event) :
    process_inbox_step st (.event e false) =
      (st, { actions := [.sendEventText e, .sendKill], returned := false }) ∧
    process_inbox_step st .kill = (st, { actions := [], returned := true }) :=
  ⟨rfl, rfl⟩

/-- C10: when `inbox.recv()` returns an error (channel closed or lagged),
`process_inbox` returns silently — no close frame is sent, no kill signal is
raised, and the state (registry store and sequence counter) is left unchanged, so
the session's other tasks keep running. -/
theorem c10_inbox_recv_error_returns_silently (st : GatewayState) :
    process_inbox_step st .recvErr = (st, { actions := [], returned := true }) :=
  rfl

/-- C8: no iteration of `gateway_task` and no iteration of the Inbox Processor
changes the session's last-received-sequence counter, so the counter never
decreases across any operation of these tasks; in particular a successful
dequeue-and-send (`.event e true`) leaves it unchanged. -/
theorem c8_sequence_counter_never_decreases (st : GatewayState) (uid : Snowflake)
    (sel : GatewaySelect) (isel : InboxSelect) :
    (gateway_task_step st uid sel).state.lastSequenceNumber = st.lastSequenceNumber ∧
    st.lastSequenceNumber ≤ (gateway_task_step st uid sel).state.lastSequenceNumber ∧
    (process_inbox_step st isel).1.lastSequenceNumber = st.lastSequenceNumber := by
  have hgw : (gateway_task_step st uid sel).state.lastSequenceNumber =
      st.lastSequenceNumber := by
    cases sel with
    | kill => rfl
    | recvErr => rfl
    | msg decoded hbOpen =>
      cases decoded with
      | error e =>
        cases e with
        | gateway g => cases g <;> rfl
        | database m => rfl
      | ok ev =>
        cases ev with
        | dispatch n p => rfl
        | heartbeat s => cases hbOpen <;> rfl
        | heartbeatAck => rfl
        | identify => rfl
        | resume => rfl
        | reconnect => rfl
        | invalidSession => rfl
        | hello => rfl
  have hib : (process_inbox_step st isel).1.lastSequenceNumber =
      st.lastSequenceNumber := by
    cases isel with
    | kill => rfl
    | recvErr => rfl
    | event e sendOk => cases sendOk <;> rfl
  exact ⟨hgw, le_of_eq hgw.symm, hib⟩

end SpacebarGateway

namespace SpacebarGateway

/-- Observable startup steps of `main` (src/src/main.rs lines 130-201), in program
order: database connection, migrations, config seeding, `Config::init`, the
`init_role_user_map` call on the fresh `ConnectedUsers`, and the two
`tokio::spawn` calls starting the API and gateway servers. `panicAbort` marks an
`.expect` firing on an error, which panics in the main task and terminates the
whole process. -/
inductive StartupStep where
  | establishConnection
  | runMigrations
  | seedConfig
  | configInit
  | initRoleUserMap
  | spawnApi
  | spawnGateway
  | panicAbort (msg : String)
deriving DecidableEq, Repr

/-- The startup sequence of `main` (src/src/main.rs lines 130-201) after logging
setup, as the ordered trace of steps performed. Each fallible collaborator call is
an oracle argument (its `Except` result); `.expect` on an error panics and aborts
the process, so the trace ends with `panicAbort` and nothing after it runs. The
migration branching (spacebar check) and the fresh-db seeding branch are collapsed
into their overall success or failure; `Config::init` uses `unwrap_or_default`, so
it cannot abort. -/
def main_startup (dbR migR seedR initRoleR : Except String Unit) :
    List StartupStep :=
  match dbR with
  | .error _ => [StartupStep.panicAbort "Failed to establish database connection"]
  | .ok _ =>
    StartupStep.establishConnection ::
    match migR with
    | .error _ => [StartupStep.panicAbort "Failed to run migrations"]
    | .ok _ =>
      StartupStep.runMigrations ::
      match seedR with
      | .error _ => [StartupStep.panicAbort "Failed to seed config"]
      | .ok _ =>
        StartupStep.seedConfig :: StartupStep.configInit ::
        match initRoleR with
        | .error _ => [StartupStep.panicAbort "Failed to init role user map"]
        | .ok _ =>
          [StartupStep.initRoleUserMap, StartupStep.spawnApi,
           StartupStep.spawnGateway]

/-- C9: if either server is spawned by `main`, then every earlier startup step —
in particular `init_role_user_map` — completed successfully, and the trace is the
full success trace in which `initRoleUserMap` strictly precedes `spawnApi` and
`spawnGateway`; and when `init_role_user_map` fails (all earlier steps having
succeeded), the process aborts with neither server spawned. -/
theorem c9_role_map_seeded_before_serving (dbR migR seedR initRoleR : Except String Unit) :
    (StartupStep.spawnApi ∈ main_startup dbR migR seedR initRoleR ∨
      StartupStep.spawnGateway ∈ main_startup dbR migR seedR initRoleR →
      main_startup dbR migR seedR initRoleR =
        [.establishConnection, .runMigrations, .seedConfig, .configInit,
         .initRoleUserMap, .spawnApi, .spawnGateway]) ∧
    (∀ msg, initRoleR = .error msg →
      main_startup (.ok ()) (.ok ()) (.ok ()) initRoleR =
        [.establishConnection, .runMigrations, .seedConfig, .configInit,
         .panicAbort "Failed to init role user map"] ∧
      StartupStep.spawnApi ∉ main_startup (.ok ()) (.ok ()) (.ok ()) initRoleR ∧
      StartupStep.spawnGateway ∉ main_startup (.ok ()) (.ok ()) (.ok ()) initRoleR) := by
  constructor
  · intro hmem
    rcases dbR with e | u
    · exfalso
      rcases hmem with h | h <;> simp [main_startup] at h
    · rcases migR with e | v
      · exfalso
        rcases hmem with h | h <;> simp [main_startup] at h
      · rcases seedR with e | w
        · exfalso
          rcases hmem with h | h <;> simp [main_startup] at h
        · rcases initRoleR with e | x
          · exfalso
            rcases hmem with h | h <;> simp [main_startup] at h
          · rfl
  · intro msg hmsg
    subst hmsg
    refine ⟨rfl, ?_, ?_⟩ <;> simp [main_startup]

/-- C9 witness: with every startup step succeeding, the trace seeds the role-user
map and only then spawns both servers; with `init_role_user_map` failing after the
earlier steps succeeded, the trace ends in a process abort and spawns neither
server. -/
theorem c9_role_map_seeded_before_serving_witness :
    main_startup (.ok ()) (.ok ()) (.ok ()) (.ok ()) =
      [.establishConnection, .runMigrations, .seedConfig, .configInit,
       .initRoleUserMap, .spawnApi, .spawnGateway] ∧
    (main_startup (.ok ()) (.ok ()) (.ok ()) (.error "no storage") =
      [.establishConnection, .runMigrations, .seedConfig, .configInit,
       .panicAbort "Failed to init role user map"] ∧
     StartupStep.spawnApi ∉ main_startup (.ok ()) (.ok ()) (.ok ()) (.error "no storage") ∧
     StartupStep.spawnGateway ∉ main_startup (.ok ()) (.ok ()) (.ok ()) (.error "no storage")) :=
  ⟨(c9_role_map_seeded_before_serving (.ok ()) (.ok ()) (.ok ()) (.ok ())).1
      (Or.inl (by simp [main_startup])),
   (c9_role_map_seeded_before_serving (.ok ()) (.ok ()) (.ok ()) (.error "no storage")).2
      "no storage" rfl⟩

end SpacebarGateway
